import Mathlib

/-!
A shallow embedding of `hooks/visual_inspector_context_hook.py` (maestro-mcp).
The script is a one-shot pre-tool-invocation hook: it parses a JSON invocation
record from stdin, filters on an allow-list of tool names, loads a design-system
JSON document from a well-known path (falling back to a built-in default), renders
it into a fixed advisory template, prints the text to stderr and exits 0.

Python JSON values are modelled by the inductive `JSON`.  The program performs no
arithmetic on numbers: floats are only ever produced by `json.load`, compared for
truthiness, and rendered via `str()`, so a float is modelled opaquely by its
shortest `repr` string (the only float the defaults use is `4.5`).  Uncaught
Python exceptions (`AttributeError` from `.get`/`.items` on a non-dict,
`TypeError` from `len`/iteration on a non-sized value, `UnicodeDecodeError` from
reading a constraints file whose bytes are not valid UTF-8) are modelled by
`PyErr` threaded through `Except`; `main` catches only the JSON-decode error on
stdin, and `load_design_system` only `json.JSONDecodeError` and `IOError`,
exactly as the source does.
-/

set_option maxRecDepth 8000

inductive JSON where
  | null
  | bool (b : Bool)
  | int (n : Int)
  | float (r : String)
  | str (s : String)
  | arr (items : List JSON)
  | obj (entries : List (String × JSON))

inductive PyErr where
  | attributeError
  | typeError
  | unicodeDecodeError
deriving DecidableEq

/-- Python truthiness of a JSON-decoded value (`if colors:` etc.).
A float is falsy exactly when it is a zero; zeros repr as "0.0" or "-0.0". -/
def truthy : JSON → Bool
  | .null => false
  | .bool b => b
  | .int n => n != 0
  | .float r => !(r == "0.0" || r == "-0.0")
  | .str s => !s.isEmpty
  | .arr items => !items.isEmpty
  | .obj entries => !entries.isEmpty

mutual

/-- Python `repr` of a JSON-decoded value (used by `str` on containers).
String escaping of special characters inside `repr` is not modelled; no claim
renders a string needing escapes. -/
def pyRepr : JSON → String
  | .null => "None"
  | .bool b => if b then "True" else "False"
  | .int n => toString n
  | .float r => r
  | .str s => "\x27" ++ s ++ "\x27"
  | .arr items => "[" ++ String.intercalate ", " (pyReprList items) ++ "]"
  | .obj entries => "\x7b" ++ String.intercalate ", " (pyReprObj entries) ++ "\x7d"

def pyReprList : List JSON → List String
  | [] => []
  | v :: vs => pyRepr v :: pyReprList vs

def pyReprObj : List (String × JSON) → List String
  | [] => []
  | kv :: kvs => ("\x27" ++ kv.1 ++ "\x27: " ++ pyRepr kv.2) :: pyReprObj kvs

end

/-- Python `str` of a JSON-decoded value, as interpolated by an f-string. -/
def pyStr : JSON → String
  | .str s => s
  | v => pyRepr v

/-- Python `v.get(key, dflt)`: defined on dicts, `AttributeError` otherwise.
Objects produced by `json.load` have unique keys; lookup takes the first match. -/
def JSON.get (self : JSON) (key : String) (dflt : JSON) : Except PyErr JSON :=
  match self with
  | .obj entries => .ok ((List.lookup key entries).getD dflt)
  | _ => .error .attributeError

/-- Python `len(v)`: sized types only, `TypeError` otherwise. -/
def pyLen : JSON → Except PyErr Nat
  | .str s => .ok s.length
  | .arr items => .ok items.length
  | .obj entries => .ok entries.length
  | _ => .error .typeError

/-- Python iteration `for x in v`: lists yield elements, strings yield
one-character strings, dicts yield keys; `TypeError` otherwise. -/
def pyIter : JSON → Except PyErr (List JSON)
  | .arr items => .ok items
  | .str s => .ok (s.data.map fun c => .str (String.mk [c]))
  | .obj entries => .ok (entries.map fun kv => .str kv.1)
  | _ => .error .typeError

/-- The default design system returned when no file exists
(`get_default_design_system` in the source). -/
def get_default_design_system : JSON :=
  .obj [
    ("brand", .obj [
      ("colors", .obj []),
      ("typography", .obj []),
      ("spacing", .obj [
        ("unit", .int 8),
        ("scale", .arr [.int 4, .int 8, .int 16, .int 24, .int 32, .int 48])])]),
    ("accessibility", .obj [
      ("min_contrast", .float "4.5"),
      ("min_touch_target", .int 44),
      ("require_labels", .bool true)]),
    ("discovered_patterns", .arr [])]

/-- Observable states of the constraints file `<tmp>/maestro-inspector/design-system.json`:
absent (`os.path.exists` false), unreadable (`IOError` on open/read), present as UTF-8
text that is not valid JSON (`json.JSONDecodeError`), present but with bytes that are
not valid UTF-8 (`f.read()` inside `json.load` raises `UnicodeDecodeError`), or present
with parsed contents `j`. -/
inductive FileState where
  | absent
  | ioFailure
  | invalidJSON
  | invalidUTF8
  | valid (j : JSON)

/-- `load_design_system` in the source: return the parsed file contents, or the
built-in default when the file is absent, unreadable, or not valid JSON.  The
except clause names only `json.JSONDecodeError` and `IOError`;
`UnicodeDecodeError` (a `ValueError` that is a subclass of neither) raised while
decoding a non-UTF-8 file propagates to the caller. -/
def load_design_system : FileState → Except PyErr JSON
  | .valid j => .ok j
  | .invalidUTF8 => .error .unicodeDecodeError
  | _ => .ok get_default_design_system

/-- The colors/typography block of `format_design_system_context`:
`if m: one line per entry else placeholder`; `.items()` on a truthy non-dict
raises `AttributeError`. -/
def section_lines (m : JSON) : Except PyErr (List String) :=
  if truthy m then
    match m with
    | .obj entries => .ok (entries.map fun kv => "  - " ++ kv.1 ++ ": " ++ pyStr kv.2)
    | _ => .error .attributeError
  else
    .ok ["  - (none discovered yet)"]

/-- The spacing computation of `format_design_system_context` (source lines 71-73):
`spacing = brand.get("spacing", {"unit": 8, "scale": [4, 8, 16, 24, 32, 48]})`,
then `spacing.get("unit", 8)` and `spacing.get("scale", [])`. -/
def spacing_values (brand : JSON) : Except PyErr (JSON × JSON) := do
  let spacing ← JSON.get brand "spacing"
    (.obj [("unit", .int 8),
           ("scale", .arr [.int 4, .int 8, .int 16, .int 24, .int 32, .int 48])])
  let spacing_unit ← JSON.get spacing "unit" (.int 8)
  let spacing_scale ← JSON.get spacing "scale" (.arr [])
  pure (spacing_unit, spacing_scale)

/-- The loop body of the discovered-patterns block:
`ptype = p.get("type", "unknown"); screens = len(p.get("screens", []))`. -/
def pattern_line (p : JSON) : Except PyErr String := do
  let ptype ← JSON.get p "type" (.str "unknown")
  let screens_val ← JSON.get p "screens" (.arr [])
  let screens ← pyLen screens_val
  pure ("  - " ++ pyStr ptype ++ " (seen on " ++ toString screens ++ " screens)")

/-- The literal f-string template of `format_design_system_context`, with each
interpolated expression already rendered to a string. -/
def render_template (colorsBlock typoBlock patternsBlock unitStr contrastStr
    touchStr labelsStr scaleStr : String) : String :=
  "📐 **Design System Verification Active**\n\nBefore analyzing this screen/component, check against these design system constraints:\n\n**Colors (from design-system.json):**\n"
  ++ colorsBlock
  ++ "\n- Verify color consistency across components\n- Check contrast ratios meet WCAG AA ("
  ++ contrastStr
  ++ ":1 minimum)\n\n**Typography:**\n"
  ++ typoBlock
  ++ "\n- Font sizes should follow "
  ++ unitStr
  ++ "px scale\n- Verify hierarchy and consistency\n\n**Spacing:**\n- Base unit: "
  ++ unitStr
  ++ "px\n- Scale: "
  ++ scaleStr
  ++ "\n- Verify padding/margins align to grid\n- Check component spacing consistency\n\n**Accessibility (constraints):**\n- Touch targets: minimum "
  ++ touchStr
  ++ "x"
  ++ touchStr
  ++ " points\n- Labels required: "
  ++ labelsStr
  ++ "\n- Contrast: minimum "
  ++ contrastStr
  ++ ":1 for normal text, 3:1 for large text\n- Focus indicators: visible and clear\n\n**Discovered Patterns:**\n"
  ++ patternsBlock
  ++ "\n\n**Analysis Questions:**\n1. Does this component/screen match the design system?\n2. Are there any inconsistencies with previously seen screens?\n3. Are accessibility requirements met?\n4. What patterns or components are being used?\n5. Should any new patterns be added using maestro_update_constraint?\n\nUse the /a11y-check, /color-audit, /typography-audit, and /spacing-audit skills for detailed analysis.\n"

/-- `format_design_system_context` in the source, statements in source order.
The comma-join over `spacing_scale` happens during f-string evaluation, i.e.
after the pattern loop, which the bind order reproduces. -/
def format_design_system_context (ds : JSON) : Except PyErr String := do
  let brand ← JSON.get ds "brand" (.obj [])
  let accessibility ← JSON.get ds "accessibility" (.obj [])
  let patterns ← JSON.get ds "discovered_patterns" (.arr [])
  let colors ← JSON.get brand "colors" (.obj [])
  let color_lines ← section_lines colors
  let typography ← JSON.get brand "typography" (.obj [])
  let typo_lines ← section_lines typography
  let spv ← spacing_values brand
  let min_contrast ← JSON.get accessibility "min_contrast" (.float "4.5")
  let min_touch ← JSON.get accessibility "min_touch_target" (.int 44)
  let require_labels ← JSON.get accessibility "require_labels" (.bool true)
  let pattern_lines ←
    if truthy patterns then do
      let ps ← pyIter patterns
      ps.mapM pattern_line
    else
      pure ["  - (none discovered yet)"]
  let scale_items ← pyIter spv.2
  let scale_str := String.intercalate ", " (scale_items.map pyStr)
  pure (render_template
    (String.intercalate "\n" color_lines)
    (String.intercalate "\n" typo_lines)
    (String.intercalate "\n" pattern_lines)
    (pyStr spv.1) (pyStr min_contrast) (pyStr min_touch) (pyStr require_labels)
    scale_str)

/-- The allow-list `visual_inspection_tools` in `main`. -/
def visual_inspection_tools : List String :=
  ["maestro_capture_screen", "maestro_hierarchy", "maestro_focus_region"]

/-- Python `v in listOfStrings`: only a string can equal a string. -/
def pyInStrList (v : JSON) (ts : List String) : Bool :=
  match v with
  | .str s => ts.contains s
  | _ => false

/-- Outcome of one process run: a `sys.exit` with the text written to
stdout/stderr, or an uncaught Python exception (CPython then prints a traceback
and the process exits with a nonzero status). -/
inductive MainResult where
  | exited (code : Nat) (stdout : String) (stderr : String)
  | crashed (e : PyErr)

namespace Hook

/-- `main` in the source.  `stdin` is the result of `json.loads(sys.stdin.read())`:
`none` for a JSON-decode failure (the only exception `main` catches), `some j`
for a successful parse.  The constraints file is read only on activation; an
exception escaping `load_design_system` or the formatter is uncaught.
`print(context, file=sys.stderr)` appends a newline. -/
def main (stdin : Option JSON) (fs : FileState) : MainResult :=
  match stdin with
  | none => .exited 0 "" ""
  | some input_data =>
    match JSON.get input_data "tool_name" (.str "") with
    | .error e => .crashed e
    | .ok tool_name =>
      if pyInStrList tool_name visual_inspection_tools then
        match load_design_system fs with
        | .error e => .crashed e
        | .ok ds =>
          match format_design_system_context ds with
          | .ok context => .exited 0 "" (context ++ "\n")
          | .error e => .crashed e
      else
        .exited 0 "" ""

end Hook

/-- Text written to the primary output channel (stdout) by a run; an uncaught
exception makes CPython print a traceback to stderr, never to stdout. -/
def stdoutOf : MainResult → String
  | .exited _ out _ => out
  | .crashed _ => ""

/-- Number of (possibly overlapping) occurrences of `pat` in `s`, by direct
structural recursion so that concrete instances reduce. -/
def substrCount (pat : List Char) : List Char → Nat
  | [] => if pat.isEmpty then 1 else 0
  | c :: rest => (if pat.isPrefixOf (c :: rest) then 1 else 0) + substrCount pat rest

/-- A document whose `brand.spacing` is present but has no `scale` entry. -/
def c2doc : JSON :=
  .obj [("brand", .obj [("spacing", .obj [("unit", .int 10)])])]

/-- What the renderer produces for `c2doc`: base unit 10, an empty Scale line,
defaults everywhere else. -/
def c2text : String :=
  "📐 **Design System Verification Active**\n\nBefore analyzing this screen/component, check against these design system constraints:\n\n**Colors (from design-system.json):**\n  - (none discovered yet)\n- Verify color consistency across components\n- Check contrast ratios meet WCAG AA (4.5:1 minimum)\n\n**Typography:**\n  - (none discovered yet)\n- Font sizes should follow 10px scale\n- Verify hierarchy and consistency\n\n**Spacing:**\n- Base unit: 10px\n- Scale: \n- Verify padding/margins align to grid\n- Check component spacing consistency\n\n**Accessibility (constraints):**\n- Touch targets: minimum 44x44 points\n- Labels required: True\n- Contrast: minimum 4.5:1 for normal text, 3:1 for large text\n- Focus indicators: visible and clear\n\n**Discovered Patterns:**\n  - (none discovered yet)\n\n**Analysis Questions:**\n1. Does this component/screen match the design system?\n2. Are there any inconsistencies with previously seen screens?\n3. Are accessibility requirements met?\n4. What patterns or components are being used?\n5. Should any new patterns be added using maestro_update_constraint?\n\nUse the /a11y-check, /color-audit, /typography-audit, and /spacing-audit skills for detailed analysis.\n"

/-- The example document of the spec: one brand color, nothing else. -/
def c7doc : JSON :=
  .obj [("brand", .obj [("colors", .obj [("primary", .str "#1a73e8")])])]

/-- What the renderer produces for `c7doc`: one color entry line, defaults in
every other section. -/
def c7ContextText : String :=
  "📐 **Design System Verification Active**\n\nBefore analyzing this screen/component, check against these design system constraints:\n\n**Colors (from design-system.json):**\n  - primary: #1a73e8\n- Verify color consistency across components\n- Check contrast ratios meet WCAG AA (4.5:1 minimum)\n\n**Typography:**\n  - (none discovered yet)\n- Font sizes should follow 8px scale\n- Verify hierarchy and consistency\n\n**Spacing:**\n- Base unit: 8px\n- Scale: 4, 8, 16, 24, 32, 48\n- Verify padding/margins align to grid\n- Check component spacing consistency\n\n**Accessibility (constraints):**\n- Touch targets: minimum 44x44 points\n- Labels required: True\n- Contrast: minimum 4.5:1 for normal text, 3:1 for large text\n- Focus indicators: visible and clear\n\n**Discovered Patterns:**\n  - (none discovered yet)\n\n**Analysis Questions:**\n1. Does this component/screen match the design system?\n2. Are there any inconsistencies with previously seen screens?\n3. Are accessibility requirements met?\n4. What patterns or components are being used?\n5. Should any new patterns be added using maestro_update_constraint?\n\nUse the /a11y-check, /color-audit, /typography-audit, and /spacing-audit skills for detailed analysis.\n"

/-- The full rendered text for the built-in default document. -/
def defaultContextText : String :=
  "📐 **Design System Verification Active**\n\nBefore analyzing this screen/component, check against these design system constraints:\n\n**Colors (from design-system.json):**\n  - (none discovered yet)\n- Verify color consistency across components\n- Check contrast ratios meet WCAG AA (4.5:1 minimum)\n\n**Typography:**\n  - (none discovered yet)\n- Font sizes should follow 8px scale\n- Verify hierarchy and consistency\n\n**Spacing:**\n- Base unit: 8px\n- Scale: 4, 8, 16, 24, 32, 48\n- Verify padding/margins align to grid\n- Check component spacing consistency\n\n**Accessibility (constraints):**\n- Touch targets: minimum 44x44 points\n- Labels required: True\n- Contrast: minimum 4.5:1 for normal text, 3:1 for large text\n- Focus indicators: visible and clear\n\n**Discovered Patterns:**\n  - (none discovered yet)\n\n**Analysis Questions:**\n1. Does this component/screen match the design system?\n2. Are there any inconsistencies with previously seen screens?\n3. Are accessibility requirements met?\n4. What patterns or components are being used?\n5. Should any new patterns be added using maestro_update_constraint?\n\nUse the /a11y-check, /color-audit, /typography-audit, and /spacing-audit skills for detailed analysis.\n"

/-! ## Helper lemmas -/

theorem ok_bind {α β : Type} (a : α) (f : α → Except PyErr β) :
    ((Except.ok a : Except PyErr α) >>= f) = f a := rfl

theorem error_bind {α β : Type} (e : PyErr) (f : α → Except PyErr β) :
    ((Except.error e : Except PyErr α) >>= f) = Except.error e := rfl

/-! ## Claims -/

/-- C1: the claim says the program exits 0 and never raises for every input
state, including a constraints file whose contents are valid JSON but not an
object.  The code violates this: `input_data.get` / `ds.get` on a non-dict
raises an uncaught `AttributeError`, shown here both for a stdin payload `[]`
and for an allow-listed tool with a constraints file containing `[]`. -/
theorem c1_nonobject_json_crashes :
    Hook.main (some (.arr [])) .absent = .crashed .attributeError ∧
    Hook.main (some (.obj [("tool_name", .str "maestro_capture_screen")]))
        (.valid (.arr [])) = .crashed .attributeError :=
  ⟨rfl, rfl⟩

/-- C2 counterexample: for the document where `brand.spacing` is present
without a `scale` entry, the rendered text does not contain the default scale
"4, 8, 16, 24, 32, 48" anywhere; its Scale line is empty. -/
theorem c2_scale_counterexample :
    format_design_system_context c2doc = .ok c2text ∧
    substrCount ("4, 8, 16, 24, 32, 48").data c2text.data = 0 ∧
    substrCount ("- Scale: \n").data c2text.data = 1 :=
  ⟨rfl, by decide, by decide⟩

/-- C2 amended: when `brand.spacing` is present as an object without a `scale`
entry, the scale is the empty list (rendered as an empty comma-join), while the
unit still independently defaults to 8; the default scale
`[4, 8, 16, 24, 32, 48]` is used only when `brand.spacing` itself is absent. -/
theorem c2_scale_amended (bl sl bl2 : List (String × JSON))
    (hs : List.lookup "spacing" bl = some (.obj sl))
    (hns : List.lookup "scale" sl = none)
    (habs : List.lookup "spacing" bl2 = none) :
    spacing_values (.obj bl) = .ok ((List.lookup "unit" sl).getD (.int 8), .arr []) ∧
    spacing_values (.obj bl2) =
      .ok (.int 8, .arr [.int 4, .int 8, .int 16, .int 24, .int 32, .int 48]) := by
  constructor
  · simp [spacing_values, JSON.get, hs, hns, ok_bind]
  · simp [spacing_values, JSON.get, habs, ok_bind]
    rfl

/-- C2 amended, witnessed at `brand.spacing = {"unit": 10}` and at a document
with no spacing at all. -/
theorem c2_scale_amended_witness :
    List.lookup "spacing" [("spacing", JSON.obj [("unit", JSON.int 10)])]
        = some (JSON.obj [("unit", JSON.int 10)]) ∧
    spacing_values (.obj [("spacing", JSON.obj [("unit", JSON.int 10)])])
        = .ok (.int 10, .arr []) ∧
    spacing_values (.obj ([] : List (String × JSON)))
        = .ok (.int 8, .arr [.int 4, .int 8, .int 16, .int 24, .int 32, .int 48]) :=
  ⟨rfl,
   (c2_scale_amended [("spacing", .obj [("unit", .int 10)])] [("unit", .int 10)] []
      rfl rfl rfl).1,
   (c2_scale_amended [("spacing", .obj [("unit", .int 10)])] [("unit", .int 10)] []
      rfl rfl rfl).2⟩

/-- C3: for every payload that parses as a JSON object whose `tool_name`
(defaulted to the empty string when absent) is not in the allow-list — which
covers absent, empty, non-allow-listed, and non-string tool names — the run
exits 0 with no output on either channel, for every constraints-file state. -/
theorem c3_non_allowlisted_silent (l : List (String × JSON)) (fs : FileState)
    (h : pyInStrList ((List.lookup "tool_name" l).getD (.str ""))
        visual_inspection_tools = false) :
    Hook.main (some (.obj l)) fs = .exited 0 "" "" := by
  simp [Hook.main, JSON.get, h]

/-- C3 witnessed at a non-string `tool_name`. -/
theorem c3_non_allowlisted_silent_witness :
    pyInStrList ((List.lookup "tool_name" [("tool_name", JSON.int 3)]).getD (.str ""))
        visual_inspection_tools = false ∧
    Hook.main (some (.obj [("tool_name", JSON.int 3)])) .absent = .exited 0 "" "" :=
  ⟨rfl, c3_non_allowlisted_silent [("tool_name", JSON.int 3)] .absent rfl⟩

/-- C4: when stdin is not valid JSON, the run exits 0 with no output,
whatever the constraints-file state. -/
theorem c4_invalid_stdin_silent (fs : FileState) :
    Hook.main none fs = .exited 0 "" "" := rfl

/-- C5: the claim says `load_design_system` returns the built-in default, with
no error surfaced, whenever the file does not exist, cannot be opened, or its
contents are not valid JSON.  The fallback does hold for the absent, IOError
and JSON-decode-error states (and the invalid-JSON state is then
indistinguishable from the absent one on every stdin), but the except clause
catches only `json.JSONDecodeError` and `IOError`: a file whose bytes are not
valid UTF-8 — contents that are certainly not valid JSON — raises
`UnicodeDecodeError` out of `json.load`, which escapes `load_design_system`
and crashes the program on activation. -/
theorem c5_load_fallback_gap :
    load_design_system .absent = .ok get_default_design_system ∧
    load_design_system .ioFailure = .ok get_default_design_system ∧
    load_design_system .invalidJSON = .ok get_default_design_system ∧
    (∀ stdin, Hook.main stdin .invalidJSON = Hook.main stdin .absent) ∧
    load_design_system .invalidUTF8 = .error .unicodeDecodeError ∧
    Hook.main (some (.obj [("tool_name", .str "maestro_capture_screen")]))
        .invalidUTF8 = .crashed .unicodeDecodeError := by
  refine ⟨rfl, rfl, rfl, ?_, rfl, rfl⟩
  intro s
  cases s with
  | none => rfl
  | some j => rfl

/-- C6: with the constraints file absent and any of the three allow-listed tool
names, the run exits 0, writes nothing to stdout, and writes to stderr exactly
the default rendering: unit 8, scale "4, 8, 16, 24, 32, 48", min_contrast 4.5,
touch target 44, labels required True, and "(none discovered yet)" for colors,
typography, and patterns. -/
theorem c6_absent_renders_defaults :
    Hook.main (some (.obj [("tool_name", .str "maestro_capture_screen")])) .absent
      = .exited 0 "" (defaultContextText ++ "\n") ∧
    Hook.main (some (.obj [("tool_name", .str "maestro_hierarchy")])) .absent
      = .exited 0 "" (defaultContextText ++ "\n") ∧
    Hook.main (some (.obj [("tool_name", .str "maestro_focus_region")])) .absent
      = .exited 0 "" (defaultContextText ++ "\n") :=
  ⟨rfl, rfl, rfl⟩

/-- C7: for the spec's example document and tool `maestro_capture_screen`, the
output is exactly `c7ContextText`, whose Colors section has the single entry
line "  - primary: #1a73e8" (the entry text occurs exactly once in the whole
output) and whose other sections all show the defaults. -/
theorem c7_example_document :
    Hook.main (some (.obj [("tool_name", .str "maestro_capture_screen")]))
        (.valid c7doc) = .exited 0 "" (c7ContextText ++ "\n") ∧
    substrCount ("- primary: #1a73e8").data c7ContextText.data = 1 :=
  ⟨rfl, by decide⟩

/-- C8: rendering is a pure, deterministic function of the document — two
renders of the same document are byte-identical — and the program's behaviour
depends on external state only through the loaded document. -/
theorem c8_render_deterministic :
    (∀ d : JSON, format_design_system_context d = format_design_system_context d) ∧
    (∀ stdin fs fs', load_design_system fs = load_design_system fs' →
      Hook.main stdin fs = Hook.main stdin fs') := by
  refine ⟨fun d => rfl, ?_⟩
  intro s fs fs' h
  cases s with
  | none => rfl
  | some j => simp only [Hook.main, h]

/-- C8 witnessed at two distinct file states with the same loaded document. -/
theorem c8_render_deterministic_witness :
    load_design_system .ioFailure = load_design_system .invalidJSON ∧
    Hook.main none .ioFailure = Hook.main none .invalidJSON :=
  ⟨rfl, c8_render_deterministic.2 none .ioFailure .invalidJSON rfl⟩

/-- C9: the primary output channel (stdout) is empty for every input, and on
activation the rendered text goes to the auxiliary channel (stderr). -/
theorem c9_output_channels :
    (∀ stdin fs, stdoutOf (Hook.main stdin fs) = "") ∧
    (∀ fs ds ctx, load_design_system fs = .ok ds →
      format_design_system_context ds = .ok ctx →
      Hook.main (some (.obj [("tool_name", .str "maestro_capture_screen")])) fs
        = .exited 0 "" (ctx ++ "\n")) := by
  constructor
  · intro s fs
    cases s with
    | none => rfl
    | some j =>
      simp only [Hook.main]
      repeat' split
      all_goals rfl
  · intro fs ds ctx hl hf
    simp [Hook.main, JSON.get, pyInStrList, visual_inspection_tools, hl, hf]

/-- C9 witnessed with the absent-file state and the default rendering. -/
theorem c9_output_channels_witness :
    load_design_system .absent = .ok get_default_design_system ∧
    format_design_system_context get_default_design_system
        = .ok defaultContextText ∧
    Hook.main (some (.obj [("tool_name", .str "maestro_capture_screen")])) .absent
        = .exited 0 "" (defaultContextText ++ "\n") :=
  ⟨rfl, rfl,
   c9_output_channels.2 .absent get_default_design_system defaultContextText rfl rfl⟩

/-- C10: for a `discovered_patterns` entry that is an object, a missing "type"
renders as "unknown" (the `.get` default), a missing "screens" renders as a
count of 0, and the rendered count is always the length of the entry's screens
list. -/
theorem c10_pattern_entry_defaults (l : List (String × JSON)) (xs : List JSON)
    (h : List.lookup "screens" l = some (.arr xs) ∨
         (List.lookup "screens" l = none ∧ xs = [])) :
    pattern_line (.obj l) =
      .ok ("  - " ++ pyStr ((List.lookup "type" l).getD (.str "unknown"))
        ++ " (seen on " ++ toString xs.length ++ " screens)") := by
  rcases h with h | ⟨h, rfl⟩ <;>
    simp [pattern_line, JSON.get, h, pyLen, ok_bind]

/-- C10 witnessed at an entry with one screen and no "type" field. -/
theorem c10_pattern_entry_defaults_witness :
    List.lookup "screens" [("screens", JSON.arr [JSON.str "home"])]
        = some (JSON.arr [JSON.str "home"]) ∧
    pattern_line (.obj [("screens", JSON.arr [JSON.str "home"])])
        = .ok "  - unknown (seen on 1 screens)" :=
  ⟨rfl,
   c10_pattern_entry_defaults [("screens", JSON.arr [JSON.str "home"])]
     [JSON.str "home"] (Or.inl rfl)⟩
